import Mathlib

/-!
Verification of the ingestion-and-derivation core of the portfolio
analytics service (src/api/main.py).

The Python module is shallowly embedded: floats are modelled as exact
rationals (ℚ), spreadsheet cells as a three-valued sum type (None, string,
number), Python dicts as insertion-ordered association lists, and raised
exceptions as Option/Except values.  The special float values inf/nan and
underscore digit separators accepted by Python's float() are outside the
model; no property below depends on them.
-/

/-- A raw spreadsheet cell as seen by the row dictionaries of main.py:
Python None, a string, or a number (ints and floats both modelled as ℚ). -/
inductive Cell where
  | none
  | str (s : String)
  | num (q : ℚ)
deriving DecidableEq

/-- Python truthiness of a cell: None, the empty string and 0 are falsy. -/
def Cell.truthy : Cell → Bool
  | Cell.none => false
  | Cell.str s => decide (s ≠ "")
  | Cell.num q => decide (q ≠ 0)

/-- Python x or y on cells: the first operand when truthy, else the second. -/
def pyOr (a b : Cell) : Cell := if a.truthy then a else b

/-- Python dict row.get(k): the stored cell, or None when the key is absent. -/
def rowGet (row : List (String × Cell)) (k : String) : Cell :=
  match row.find? (fun p => p.1 == k) with
  | some p => p.2
  | Option.none => Cell.none

/-- Python dict row.get(k, d): the stored cell, or d when the key is absent. -/
def rowGetD (row : List (String × Cell)) (k : String) (d : Cell) : Cell :=
  match row.find? (fun p => p.1 == k) with
  | some p => p.2
  | Option.none => d

/-- Strip leading and trailing whitespace from a character list
(Python str.strip()). -/
def stripChars (l : List Char) : List Char :=
  ((l.dropWhile Char.isWhitespace).reverse.dropWhile Char.isWhitespace).reverse

/-- Numeric value of a decimal digit character. -/
def digitVal (c : Char) : ℕ := c.toNat - 48

/-- Value of a list of decimal digit characters, most significant first. -/
def digitsToNat (l : List Char) : ℕ := l.foldl (fun a c => a * 10 + digitVal c) 0

/-- The discrete components of a Python float literal: sign, integer-part
digits, fractional-part digits with their count, and exponent. -/
structure FloatParts where
  neg : Bool
  intDigits : ℕ
  fracDigits : ℕ
  fracLen : ℕ
  exp : ℤ
deriving DecidableEq

/-- Exponent suffix of a Python float literal: an optional sign followed by
at least one digit, consuming the whole remainder. -/
def parseExponent (r : List Char) : Option ℤ :=
  let (es, r1) : ℤ × List Char :=
    match r with
    | '-' :: t => (-1, t)
    | '+' :: t => (1, t)
    | _ => (1, r)
  let ds := r1.takeWhile Char.isDigit
  let rem := r1.dropWhile Char.isDigit
  if ds.isEmpty then Option.none
  else if rem.isEmpty then some (es * (digitsToNat ds : ℤ))
  else Option.none

/-- Syntactic scan of a Python float literal: optional surrounding
whitespace, optional sign, digits with an optional fractional part, and an
optional exponent.  Option.none models a raised ValueError. -/
def floatParts (s : String) : Option FloatParts :=
  let cs := stripChars s.toList
  let (neg, cs1) : Bool × List Char :=
    match cs with
    | '-' :: rest => (true, rest)
    | '+' :: rest => (false, rest)
    | _ => (false, cs)
  let intPart := cs1.takeWhile Char.isDigit
  let rest1 := cs1.dropWhile Char.isDigit
  let (fracPart, rest2) : List Char × List Char :=
    match rest1 with
    | '.' :: r => (r.takeWhile Char.isDigit, r.dropWhile Char.isDigit)
    | _ => ([], rest1)
  if intPart.isEmpty ∧ fracPart.isEmpty then Option.none
  else
    match rest2 with
    | [] => some ⟨neg, digitsToNat intPart, digitsToNat fracPart, fracPart.length, 0⟩
    | 'e' :: r =>
      (parseExponent r).map
        (fun e => ⟨neg, digitsToNat intPart, digitsToNat fracPart, fracPart.length, e⟩)
    | 'E' :: r =>
      (parseExponent r).map
        (fun e => ⟨neg, digitsToNat intPart, digitsToNat fracPart, fracPart.length, e⟩)
    | _ => Option.none

/-- The rational value denoted by a scanned float literal. -/
def ratOfParts (p : FloatParts) : ℚ :=
  (if p.neg then -1 else 1) * ((p.intDigits : ℚ) + (p.fracDigits : ℚ) / 10 ^ p.fracLen) *
    10 ^ p.exp

/-- Python float(string): the value of the scanned literal, ValueError as
Option.none. -/
def pyFloat (s : String) : Option ℚ := (floatParts s).map ratOfParts

/-- Round-half-to-even to the nearest integer, as Python round() does. -/
def roundHalfEven (x : ℚ) : ℤ :=
  let f := ⌊x⌋
  if x - f < 1 / 2 then f
  else if (1 : ℚ) / 2 < x - f then f + 1
  else if f % 2 = 0 then f else f + 1

/-- Python round(x, n) to n decimal places. -/
def pyRound (x : ℚ) (n : ℕ) : ℚ := (roundHalfEven (x * 10 ^ n) : ℚ) / 10 ^ n

/-- Truncation toward zero, as Python int() applied to a float. -/
def truncQ (q : ℚ) : ℤ := if q < 0 then -⌊-q⌋ else ⌊q⌋

/-- Decimal rendering of a rational, mirroring Python str() on numbers.
Exact for finite decimals; rationals with no finite decimal expansion
within 40 digits fall back to a fraction form (unreachable from Python
floats). -/
def ratRepr (q : ℚ) : String :=
  let sgn := if q < 0 then "-" else ""
  let a : ℚ := |q|
  if a.den = 1 then sgn ++ toString a.num ++ ".0"
  else
    match (List.range 40).find? (fun k => (a * (10 : ℚ) ^ k).den = 1) with
    | some k =>
      let digs := toString (a * (10 : ℚ) ^ k).num
      let padded :=
        if digs.length < k + 1 then
          (List.replicate (k + 1 - digs.length) '0').asString ++ digs
        else digs
      sgn ++ (padded.toList.take (padded.length - k)).asString ++ "." ++
        (padded.toList.drop (padded.length - k)).asString
    | Option.none => sgn ++ toString a.num ++ "/" ++ toString a.den

/-- Python str(x) on a cell. -/
def pyStr : Cell → String
  | Cell.none => "None"
  | Cell.str s => s
  | Cell.num q => ratRepr q

/-- Python float(x) on a cell: numbers pass through, strings are parsed,
None raises TypeError (Option.none). -/
def cellFloat : Cell → Option ℚ
  | Cell.none => Option.none
  | Cell.str s => pyFloat s
  | Cell.num q => some q

/-- Python abs(x) on a cell: defined for numbers only, TypeError otherwise. -/
def cellAbs : Cell → Option ℚ
  | Cell.num q => some |q|
  | _ => Option.none

/-- A normalized holding record (main.py lines 197-214 and HoldingItem). -/
structure Holding where
  symbol : String
  name : String
  quantity : ℤ
  avgPrice : ℚ
  currentPrice : ℚ
  sector : String
  marketCap : String
  value : ℚ
  gainLoss : ℚ
  gainLossPercent : ℚ
deriving DecidableEq

/-- Resolved Symbol cell of a holdings row (main.py line 175). -/
def hSymbol (row : List (String × Cell)) : Cell :=
  pyOr (rowGet row "Symbol") (rowGet row "symbol")

/-- Resolved company-name cell (main.py lines 180-184). -/
def hCompanyName (row : List (String × Cell)) : Cell :=
  pyOr (rowGet row "company_name") (pyOr (rowGet row "Company Name") (rowGetD row "name" (Cell.str "")))

/-- Resolved Quantity cell (main.py line 185). -/
def hQuantity (row : List (String × Cell)) : Cell :=
  pyOr (rowGet row "Quantity") (rowGetD row "quantity" (Cell.num 0))

/-- Resolved average-price cell (main.py line 186). -/
def hAvgPrice (row : List (String × Cell)) : Cell :=
  pyOr (rowGet row "avg_price") (rowGetD row "avgPrice" (Cell.num 0))

/-- Resolved current-price cell (main.py line 187). -/
def hCurrentPrice (row : List (String × Cell)) : Cell :=
  pyOr (rowGet row "current_price") (rowGetD row "currentPrice" (Cell.num 0))

/-- Resolved Sector cell (main.py line 188). -/
def hSector (row : List (String × Cell)) : Cell :=
  pyOr (rowGet row "Sector") (rowGetD row "sector" (Cell.str ""))

/-- Resolved market-cap cell (main.py line 189). -/
def hMarketCap (row : List (String × Cell)) : Cell :=
  pyOr (rowGet row "market_cap") (rowGetD row "Market Cap" (Cell.str ""))

/-- Resolved value cell (main.py line 190). -/
def hValue (row : List (String × Cell)) : Cell :=
  pyOr (rowGet row "value") (rowGetD row "Value" (Cell.num 0))

/-- Resolved gain-loss cell (main.py line 191). -/
def hGainLoss (row : List (String × Cell)) : Cell :=
  pyOr (rowGet row "gain_loss") (rowGetD row "gainLoss" (Cell.num 0))

/-- Resolved gain-loss-percent cell (main.py lines 192-194). -/
def hGainLossPercent (row : List (String × Cell)) : Cell :=
  pyOr (rowGet row "gain_loss_percent") (rowGetD row "gainLossPercent" (Cell.num 0))

/-- The gainLossPercent coercion of main.py lines 208-212:
float(c) * 100 if c and abs(c) <= 1 else (float(c) if c else 0.0).
abs() raises TypeError on a truthy string (Option.none). -/
def cellGainLossPercent (c : Cell) : Option ℚ :=
  if c.truthy then
    match cellAbs c with
    | Option.none => Option.none
    | some a =>
      if a ≤ 1 then (cellFloat c).map (fun x => x * 100) else cellFloat c
  else some 0

/-- Numeric coercion float(c) if c else 0.0 of main.py lines 202-207. -/
def cellNumOrZero (c : Cell) : Option ℚ :=
  if c.truthy then cellFloat c else some 0

/-- Integer coercion int(float(c)) if c else 0 of main.py line 201. -/
def cellIntOrZero (c : Cell) : Option ℤ :=
  if c.truthy then (cellFloat c).map truncQ else some 0

/-- Per-row holding conversion (main.py lines 172-218).  Option.none means
the row is not appended: either the empty-symbol check skipped it or the
row-level except caught a coercion error. -/
def processHoldingRow (row : List (String × Cell)) : Option Holding :=
  if ¬ (hSymbol row).truthy then Option.none
  else
    match cellIntOrZero (hQuantity row), cellNumOrZero (hAvgPrice row),
          cellNumOrZero (hCurrentPrice row), cellNumOrZero (hValue row),
          cellNumOrZero (hGainLoss row), cellGainLossPercent (hGainLossPercent row) with
    | some qty, some ap, some cp, some v, some gl, some glp =>
      some
        { symbol := pyStr (hSymbol row), name := pyStr (hCompanyName row),
          quantity := qty, avgPrice := ap, currentPrice := cp,
          sector := pyStr (hSector row), marketCap := pyStr (hMarketCap row),
          value := v, gainLoss := gl, gainLossPercent := glp }
    | _, _, _, _, _, _ => Option.none

/-- The holdings_data list built by the loader (main.py lines 171-220). -/
def holdingsOfRows (rows : List (List (String × Cell))) : List Holding :=
  rows.filterMap processHoldingRow

/-- All six numeric coercions of a holdings row succeed: each resolved
numeric cell is falsy or parses as a number, and the gain-loss-percent
cell is not a truthy non-number. -/
def rowNumericsOk (row : List (String × Cell)) : Bool :=
  (¬ (hQuantity row).truthy ∨ (cellFloat (hQuantity row)).isSome) ∧
  (¬ (hAvgPrice row).truthy ∨ (cellFloat (hAvgPrice row)).isSome) ∧
  (¬ (hCurrentPrice row).truthy ∨ (cellFloat (hCurrentPrice row)).isSome) ∧
  (¬ (hValue row).truthy ∨ (cellFloat (hValue row)).isSome) ∧
  (¬ (hGainLoss row).truthy ∨ (cellFloat (hGainLoss row)).isSome) ∧
  (¬ (hGainLossPercent row).truthy ∨ (cellAbs (hGainLossPercent row)).isSome)

/-- A point of the historical-performance timeline (main.py lines 246-259). -/
structure PerfPoint where
  date : String
  portfolio : ℚ
  nifty50 : ℚ
  gold : ℚ
deriving DecidableEq

/-- Returns of one series over the three periods (PerformanceReturns model). -/
structure PerformanceReturns where
  month1 : ℚ
  months3 : ℚ
  year1 : ℚ
deriving DecidableEq

/-- The returns dict of calculate_performance_returns when it is non-empty:
one PerformanceReturns per series portfolio/nifty50/gold. -/
structure AllReturns where
  portfolio : PerformanceReturns
  nifty50 : PerformanceReturns
  gold : PerformanceReturns
deriving DecidableEq

/-- An entry of the sector_allocation / market_cap caches
(main.py lines 274-279 and 302-307). -/
structure Bucket where
  value : ℚ
  percentage : ℚ
deriving DecidableEq

/-- An AllocationItem response record (main.py lines 46-49). -/
structure AllocationItem where
  value : ℚ
  percentage : ℚ
deriving DecidableEq

/-- An entry of the top_performers cache (main.py lines 353-357). -/
structure TPRecord where
  symbol : Cell
  name : Cell
  performance : Cell
deriving DecidableEq

/-- A TopPerformer response record (main.py lines 69-73). -/
structure TopPerformer where
  symbol : String
  name : String
  gainPercent : Option ℚ
  value : Option ℚ
deriving DecidableEq

/-- The module-level DATA_CACHE dict (main.py lines 96-103); each table is
None until a load stores it. -/
structure DataCache where
  holdings : Option (List Holding)
  historical_performance : Option (List PerfPoint)
  sector_allocation : Option (List (Cell × Bucket))
  market_cap : Option (List (Cell × Bucket))
  summary : Option (List (Cell × Cell))
  top_performers : Option (List (Cell × TPRecord))
deriving DecidableEq

/-- Python truthiness of a cache slot: None and the empty dict/list are
falsy. -/
def optTruthy {α : Type} : Option (List α) → Bool
  | Option.none => false
  | some l => ¬ l.isEmpty

/-- Python dict insertion d[k] = v: replace the stored value when the key
exists, else append, preserving insertion order. -/
def upsert {α β : Type} [DecidableEq α] (l : List (α × β)) (k : α) (v : β) : List (α × β) :=
  if l.any (fun p => decide (p.1 = k)) then
    l.map (fun p => if p.1 = k then (k, v) else p)
  else l ++ [(k, v)]

/-- A raw row of the Historical_Performance sheet after the renames of
main.py lines 229-235; each field is the cell under the renamed header. -/
structure PerfRow where
  date : Cell
  portfolio_value : Cell
  nifty50 : Cell
  gold : Cell
deriving DecidableEq

/-- Historical-performance row conversion (main.py lines 238-259).  The
outer Option models an exception aborting the whole load (there is no
per-row try here); the inner Option is the falsy-date skip. -/
def processPerfRow (r : PerfRow) : Option (Option PerfPoint) :=
  if r.date.truthy then
    match (if r.portfolio_value.truthy then cellFloat r.portfolio_value else some 0),
          (if r.nifty50.truthy then cellFloat r.nifty50 else some 0),
          (if r.gold.truthy then cellFloat r.gold else some 0) with
    | some p, some n, some g => some (some ⟨(pyStr r.date).take 10, p, n, g⟩)
    | _, _, _ => Option.none
  else some Option.none

/-- The performance_data list (main.py lines 237-259). -/
def perfOfRows (rows : List PerfRow) : Option (List PerfPoint) :=
  (rows.mapM processPerfRow).map (fun l => l.filterMap id)

/-- A raw row of the Sector_Allocation sheet after the rename of
main.py line 269. -/
structure SectorRow where
  sector : Cell
  value : Cell
  percentage : Cell
deriving DecidableEq

/-- Sector-allocation row conversion (main.py lines 272-279).  The outer
Option models a raised exception aborting the whole load; the dict is
keyed by the raw Sector cell. -/
def processSectorRow (r : SectorRow) : Option (Option (Cell × Bucket)) :=
  if r.sector.truthy then
    match (if r.value.truthy then cellFloat r.value else some 0),
          (if r.percentage.truthy then (cellFloat r.percentage).map (fun x => x * 100)
           else some 0) with
    | some v, some p => some (some (r.sector, ⟨v, p⟩))
    | _, _ => Option.none
  else some Option.none

/-- The sector_data dict (main.py lines 271-279). -/
def sectorOfRows (rows : List SectorRow) : Option (List (Cell × Bucket)) :=
  rows.foldlM
    (fun acc r =>
      (processSectorRow r).map
        (fun o =>
          match o with
          | some kb => upsert acc kb.1 kb.2
          | Option.none => acc))
    []

/-- Strip commas and rupee signs and surrounding whitespace, as the chained
str.replace(",", "").replace("₹", "").strip() calls do. -/
def cleanMoney (s : String) : String :=
  (stripChars ((s.toList.filter (fun c => decide (c ≠ ','))).filter
    (fun c => decide (c ≠ '₹')))).asString

/-- Market-cap value parsing (main.py lines 296-300): stringify, strip
separators and currency glyph, parse; any failure yields 0.0 because the
try/except swallows it, so this function is total. -/
def marketCapParseValue (s : String) : ℚ :=
  let value_str := cleanMoney s
  if value_str ≠ "" ∧ value_str ≠ "0" then ((pyFloat value_str).getD 0) else 0

/-- A raw row of the Market_Cap sheet after the renames of
main.py lines 288-290. -/
structure MCRow where
  market_cap : Cell
  value : Cell
  percentage : Cell
deriving DecidableEq

/-- Market-cap row conversion (main.py lines 293-307).  The value parse
never raises; the Percentage coercion can, aborting the load. -/
def processMCRow (r : MCRow) : Option (Option (Cell × Bucket)) :=
  if r.market_cap.truthy then
    match (if r.percentage.truthy then (cellFloat r.percentage).map (fun x => x * 100)
           else some 0) with
    | some p => some (some (r.market_cap, ⟨marketCapParseValue (pyStr r.value), p⟩))
    | Option.none => Option.none
  else some Option.none

/-- The market_cap_data dict (main.py lines 292-307). -/
def mcOfRows (rows : List MCRow) : Option (List (Cell × Bucket)) :=
  rows.foldlM
    (fun acc r =>
      (processMCRow r).map
        (fun o =>
          match o with
          | some kb => upsert acc kb.1 kb.2
          | Option.none => acc))
    []

/-- A raw row of the Summary sheet. -/
structure SummaryRow where
  metric : Cell
  value : Cell
deriving DecidableEq

/-- Summary row conversion (main.py lines 317-330): string values are
cleaned and parsed, staying the cleaned string when unparsable; nothing
here raises. -/
def processSummaryRow (r : SummaryRow) : Option (Cell × Cell) :=
  if r.metric.truthy then
    let v :=
      match r.value with
      | Cell.str s =>
        let c := cleanMoney s
        (match pyFloat c with
         | some q => Cell.num q
         | Option.none => Cell.str c)
      | other => other
    some (r.metric, v)
  else Option.none

/-- The summary_data dict (main.py lines 316-330). -/
def summaryOfRows (rows : List SummaryRow) : List (Cell × Cell) :=
  rows.foldl
    (fun acc r =>
      match processSummaryRow r with
      | some kv => upsert acc kv.1 kv.2
      | Option.none => acc)
    []

/-- A raw row of the Top_Performers sheet. -/
structure TPRow where
  metric : Cell
  performance : Cell
  symbol : Cell
  company_name : Cell
deriving DecidableEq

/-- Top-performers row conversion (main.py lines 340-357): a string
Performance is cleaned and parsed, keeping the original string when
unparsable; nothing here raises. -/
def processTPRow (r : TPRow) : Option (Cell × TPRecord) :=
  if r.metric.truthy then
    let perf :=
      match r.performance with
      | Cell.str s =>
        (match pyFloat (cleanMoney s) with
         | some q => Cell.num q
         | Option.none => Cell.str s)
      | other => other
    some (r.metric, ⟨r.symbol, r.company_name, perf⟩)
  else Option.none

/-- The top_performers_data dict (main.py lines 339-357). -/
def tpOfRows (rows : List TPRow) : List (Cell × TPRecord) :=
  rows.foldl
    (fun acc r =>
      match processTPRow r with
      | some kv => upsert acc kv.1 kv.2
      | Option.none => acc)
    []

/-- The external Excel workbook as the loader sees it.  A sheet field is
Option.none when opening or decoding that sheet raises (for Holdings, only
after the pandas fallback also failed); the Holdings sheet rows are kept
raw because their conversion has per-row error handling. -/
structure ExcelSource where
  fileExists : Bool
  holdings_sheet : Option (List (List (String × Cell)))
  performance_sheet : Option (List PerfRow)
  sector_sheet : Option (List SectorRow)
  market_cap_sheet : Option (List MCRow)
  summary_sheet : Option (List SummaryRow)
  top_performers_sheet : Option (List TPRow)

/-- load_excel_data (main.py lines 109-366) as a state transition on the
module cache.  The function mutates DATA_CACHE slot by slot as each sheet
is processed; an exception at any later step is caught by the outer except
and returns False with the mutations made so far left in place. -/
def load_excel_data (src : ExcelSource) (cache : DataCache) : Bool × DataCache :=
  if ¬ src.fileExists then (false, cache)
  else
    match src.holdings_sheet with
    | Option.none => (false, cache)
    | some hrows =>
      let c1 := { cache with holdings := some (holdingsOfRows hrows) }
      match src.performance_sheet with
      | Option.none => (false, c1)
      | some prows =>
        match perfOfRows prows with
        | Option.none => (false, c1)
        | some perf =>
          let c2 := { c1 with historical_performance := some perf }
          match src.sector_sheet with
          | Option.none => (false, c2)
          | some srows =>
            match sectorOfRows srows with
            | Option.none => (false, c2)
            | some sect =>
              let c3 := { c2 with sector_allocation := some sect }
              match src.market_cap_sheet with
              | Option.none => (false, c3)
              | some mrows =>
                match mcOfRows mrows with
                | Option.none => (false, c3)
                | some mc =>
                  let c4 := { c3 with market_cap := some mc }
                  match src.summary_sheet with
                  | Option.none => (false, c4)
                  | some urows =>
                    let c5 := { c4 with summary := some (summaryOfRows urows) }
                    match src.top_performers_sheet with
                    | Option.none => (false, c5)
                    | some trows =>
                      (true, { c5 with top_performers := some (tpOfRows trows) })

/-- Grouped value totals over holdings, keyed by a category field: the
sector_totals / cap_totals accumulation loops of main.py lines 398-402 and
431-435 (insert 0 on first sight of a key, then add the holding value). -/
def accumTotals (keyOf : Holding → String) (holdings : List Holding) : List (String × ℚ) :=
  holdings.foldl
    (fun acc h =>
      if acc.any (fun p => decide (p.1 = keyOf h)) then
        acc.map (fun p => if p.1 = keyOf h then (p.1, p.2 + h.value) else p)
      else acc ++ [(keyOf h, h.value)])
    []

/-- calculate_allocation_by_sector (main.py lines 380-409).  Except.error
models the ZeroDivisionError that the fallback percentage computation can
raise; fallback keys are the sector strings. -/
def calculate_allocation_by_sector (cache : DataCache) :
    Except String (List (Cell × AllocationItem)) :=
  if optTruthy cache.sector_allocation then
    Except.ok ((cache.sector_allocation.getD []).map
      (fun p => (p.1, AllocationItem.mk p.2.value (pyRound p.2.percentage 1))))
  else if ¬ optTruthy cache.holdings then Except.ok []
  else
    let holdings_data := cache.holdings.getD []
    let total_value := (holdings_data.map Holding.value).sum
    let sector_totals := accumTotals Holding.sector holdings_data
    (sector_totals.mapM
      (fun p =>
        if total_value = 0 then Except.error "ZeroDivisionError"
        else Except.ok (Cell.str p.1,
          AllocationItem.mk p.2 (pyRound (p.2 / total_value * 100) 1))))

/-- calculate_allocation_by_market_cap (main.py lines 412-442): as for
sectors, but the precomputed branch keeps only buckets of positive value. -/
def calculate_allocation_by_market_cap (cache : DataCache) :
    Except String (List (Cell × AllocationItem)) :=
  if optTruthy cache.market_cap then
    Except.ok (((cache.market_cap.getD []).filter (fun p => decide (p.2.value > 0))).map
      (fun p => (p.1, AllocationItem.mk p.2.value (pyRound p.2.percentage 1))))
  else if ¬ optTruthy cache.holdings then Except.ok []
  else
    let holdings_data := cache.holdings.getD []
    let total_value := (holdings_data.map Holding.value).sum
    let cap_totals := accumTotals Holding.marketCap holdings_data
    (cap_totals.mapM
      (fun p =>
        if total_value = 0 then Except.error "ZeroDivisionError"
        else Except.ok (Cell.str p.1,
          AllocationItem.mk p.2 (pyRound (p.2 / total_value * 100) 1))))

/-- calculate_return (main.py lines 462-465). -/
def calculate_return (current_val past_val : ℚ) : ℚ :=
  if past_val > 0 then pyRound ((current_val - past_val) / past_val * 100) 1 else 0

/-- calculate_performance_returns (main.py lines 445-483); Option.none
models the empty returns dict. -/
def calculate_performance_returns (tl : List PerfPoint) : Option AllReturns :=
  if tl.isEmpty ∨ tl.length < 2 then Option.none
  else
    let dflt : PerfPoint := ⟨"", 0, 0, 0⟩
    let current := tl.getD (tl.length - 1) dflt
    let month1_data := if tl.length ≥ 2 then tl.getD (tl.length - 2) dflt else tl.getD 0 dflt
    let months3_data :=
      if tl.length ≥ 4 then tl.getD (max 0 (tl.length - 4)) dflt else tl.getD 0 dflt
    let year1_data := tl.getD 0 dflt
    some
      ⟨⟨calculate_return current.portfolio month1_data.portfolio,
        calculate_return current.portfolio months3_data.portfolio,
        calculate_return current.portfolio year1_data.portfolio⟩,
       ⟨calculate_return current.nifty50 month1_data.nifty50,
        calculate_return current.nifty50 months3_data.nifty50,
        calculate_return current.nifty50 year1_data.nifty50⟩,
       ⟨calculate_return current.gold month1_data.gold,
        calculate_return current.gold months3_data.gold,
        calculate_return current.gold year1_data.gold⟩⟩

/-- The period return exactly as the specification words it:
(current − past) / past × 100 rounded to one decimal, and 0 whenever the
past value is ≤ 0. -/
def specReturn (current past : ℚ) : ℚ :=
  if past ≤ 0 then 0 else pyRound ((current - past) / past * 100) 1

/-- calculate_diversification_score (main.py lines 486-504). -/
def calculate_diversification_score (holdings_data : List Holding) : ℚ :=
  if holdings_data.isEmpty then 5
  else
    let num_sectors := ((holdings_data.map Holding.sector).dedup).length
    let num_holdings := holdings_data.length
    let base_score : ℚ := ((min (num_sectors * 2) 10 : ℕ) : ℚ)
    let concentration_penalty : ℚ :=
      if num_holdings > 10 then max 0 (((num_holdings : ℚ) - 10) * (1 / 10)) else 0
    min 10 (max 1 (base_score - concentration_penalty))

/-- determine_risk_level (main.py lines 507-533).  The unused sectors set
of line 514 is dead code and not modelled. -/
def determine_risk_level (diversification_score : ℚ) (holdings_data : List Holding) : String :=
  if holdings_data.isEmpty then "Moderate"
  else
    let high_risk_exposure :=
      ((holdings_data.filter
        (fun h => decide (h.sector = "Technology") || decide (h.sector = "Small Cap Stocks"))).map
          Holding.value).sum
    let total_value := (holdings_data.map Holding.value).sum
    let high_risk_ratio := if total_value > 0 then high_risk_exposure / total_value else 0
    if diversification_score ≥ 8 ∧ high_risk_ratio < 3 / 10 then "Conservative"
    else if diversification_score ≥ 6 ∧ high_risk_ratio < 1 / 2 then "Moderate"
    else "Aggressive"

/-- The high-risk value share exactly as the specification words it:
high-risk sector value over total value, 0 when the total is 0. -/
def specHighRiskShare (holdings_data : List Holding) : ℚ :=
  let high_risk_exposure :=
    ((holdings_data.filter
      (fun h => decide (h.sector = "Technology") || decide (h.sector = "Small Cap Stocks"))).map
        Holding.value).sum
  let total_value := (holdings_data.map Holding.value).sum
  if total_value = 0 then 0 else high_risk_exposure / total_value

/-- A HoldingItem response record (main.py lines 33-43). -/
structure HoldingItem where
  symbol : String
  name : String
  quantity : ℤ
  avgPrice : ℚ
  currentPrice : ℚ
  sector : String
  marketCap : String
  value : ℚ
  gainLoss : ℚ
  gainLossPercent : ℚ
deriving DecidableEq

/-- The HoldingItem built per holding by get_portfolio_holdings
(main.py lines 577-590): a copy with gainLossPercent rounded to 2 places. -/
def toHoldingItem (h : Holding) : HoldingItem :=
  ⟨h.symbol, h.name, h.quantity, h.avgPrice, h.currentPrice, h.sector, h.marketCap,
   h.value, h.gainLoss, pyRound h.gainLossPercent 2⟩

/-- get_portfolio_holdings (main.py lines 561-597) over an already-loaded
cache; Except.error models the 404 on falsy holdings. -/
def get_portfolio_holdings (cache : DataCache) : Except String (List HoldingItem) :=
  if ¬ optTruthy cache.holdings then Except.error "No holdings data found"
  else Except.ok ((cache.holdings.getD []).map toHoldingItem)

/-- The fallback performer derivation of get_portfolio_summary
(main.py lines 733-766): sort by gainLossPercent and by value, both
descending and stable as Python sorted with reverse=True; take the first
and last of each order.  Option.none models the IndexError raised on an
empty holdings list. -/
def fallbackPerformers (holdings_data : List Holding) :
    Option (TopPerformer × TopPerformer × TopPerformer × TopPerformer) :=
  let sorted_by_performance :=
    holdings_data.mergeSort (fun a b => decide (b.gainLossPercent ≤ a.gainLossPercent))
  let sorted_by_value := holdings_data.mergeSort (fun a b => decide (b.value ≤ a.value))
  match sorted_by_performance, sorted_by_performance.getLast?,
        sorted_by_value, sorted_by_value.getLast? with
  | top :: _, some worst, hv :: _, some lv =>
    some
      (⟨top.symbol, top.name, some top.gainLossPercent, Option.none⟩,
       ⟨worst.symbol, worst.name, some worst.gainLossPercent, Option.none⟩,
       ⟨hv.symbol, hv.name, Option.none, some hv.value⟩,
       ⟨lv.symbol, lv.name, Option.none, some lv.value⟩)
  | _, _, _, _ => Option.none

/-- A holding with only the fields a concrete example needs: remaining
numerics zero. -/
def mkHolding (sym sector : String) (value : ℚ) : Holding :=
  ⟨sym, "", 0, 0, 0, sector, "", value, 0, 0⟩

/-- The initial DATA_CACHE: every table None (main.py lines 96-103). -/
def emptyCache : DataCache :=
  ⟨Option.none, Option.none, Option.none, Option.none, Option.none, Option.none⟩

/-- A source whose Holdings sheet reads fine but whose
Historical_Performance sheet is unreadable. -/
def partialFailureSource : ExcelSource :=
  ⟨true, some [], Option.none, Option.none, Option.none, Option.none, Option.none⟩

/-- A cache whose only loaded table is a holdings list. -/
def holdingsOnlyCache (l : List Holding) : DataCache :=
  ⟨some l, Option.none, Option.none, Option.none, Option.none, Option.none⟩

/-- Eight holdings over five sectors. -/
def exEightHoldings : List Holding :=
  [mkHolding "A" "S1" 0, mkHolding "B" "S2" 0, mkHolding "C" "S3" 0,
   mkHolding "D" "S4" 0, mkHolding "E" "S5" 0, mkHolding "F" "S1" 0,
   mkHolding "G" "S2" 0, mkHolding "H" "S3" 0]

/-- Twenty holdings over three sectors. -/
def exTwentyHoldings : List Holding :=
  List.replicate 7 (mkHolding "x" "S1" 0) ++ List.replicate 7 (mkHolding "y" "S2" 0) ++
    List.replicate 6 (mkHolding "z" "S3" 0)

/-- The two-point timeline used to instantiate the returns theorem. -/
def twoPointTimeline : List PerfPoint :=
  [⟨"2024-01-01", 100, 200, 0⟩, ⟨"2024-02-01", 110, 100, 5⟩]

/-- All six resolved numeric cells of a holdings row are falsy
(blank/None/zero). -/
def rowNumericsFalsy (row : List (String × Cell)) : Bool :=
  !(hQuantity row).truthy && !(hAvgPrice row).truthy && !(hCurrentPrice row).truthy &&
    !(hValue row).truthy && !(hGainLoss row).truthy && !(hGainLossPercent row).truthy

/-- A Holdings row with a non-empty symbol whose Quantity cell is a
non-numeric string. -/
def nonNumericQuantityRow : List (String × Cell) :=
  [("Symbol", Cell.str "AAA"), ("Quantity", Cell.str "abc")]

/-- A Holdings row with only a symbol: every numeric cell is absent. -/
def blankNumericsRow : List (String × Cell) := [("Symbol", Cell.str "INFY")]

/-- Evaluation helper: Python round is exact on values that already have
n decimal places. -/
theorem pyRound_exact (x : ℚ) (n : ℕ) (k : ℤ) (h : x * 10 ^ n = (k : ℚ)) :
    pyRound x n = (k : ℚ) / 10 ^ n := by
  have hfloor : ⌊x * 10 ^ n⌋ = k := by rw [h]; exact Int.floor_intCast k
  unfold pyRound roundHalfEven
  rw [hfloor, h]
  simp

/-- C1: a load attempt that fails after the Holdings sheet was processed
returns False but leaves DATA_CACHE partially mutated: the new holdings
table is installed while historical_performance was never replaced, so a
failed load does not leave the snapshot unchanged as the specification
requires. -/
theorem c1_load_failure_mutates_cache :
    (load_excel_data partialFailureSource emptyCache).1 = false ∧
    (load_excel_data partialFailureSource emptyCache).2 ≠ emptyCache ∧
    (load_excel_data partialFailureSource emptyCache).2.holdings = some [] ∧
    (load_excel_data partialFailureSource emptyCache).2.historical_performance = Option.none := by
  refine ⟨rfl, ?_, rfl, rfl⟩
  intro h
  have h2 : (load_excel_data partialFailureSource emptyCache).2.holdings = some [] := rfl
  rw [h] at h2
  simp [emptyCache] at h2

/-- C8: the Market_Cap value parse strips the thousands separator and the
rupee glyph so "₹1,234.50" parses to 1234.50, and any value whose cleaned
string does not parse as a float yields 0.0 (the try/except makes the
function total, so nothing is raised). -/
theorem c8_market_cap_value_parse :
    marketCapParseValue "₹1,234.50" = 2469 / 2 ∧
    (∀ s : String, pyFloat (cleanMoney s) = Option.none → marketCapParseValue s = 0) := by
  constructor
  · have hclean : cleanMoney "₹1,234.50" = "1234.50" := by decide
    have hparts : floatParts "1234.50" = some ⟨false, 1234, 50, 2, 0⟩ := by decide
    unfold marketCapParseValue
    rw [hclean]
    rw [if_pos (by decide)]
    rw [pyFloat, hparts]
    show ratOfParts ⟨false, 1234, 50, 2, 0⟩ = 2469 / 2
    unfold ratOfParts
    norm_num
  · intro s hs
    show (if cleanMoney s ≠ "" ∧ cleanMoney s ≠ "0"
          then (pyFloat (cleanMoney s)).getD 0 else 0) = 0
    rw [hs]
    split
    · rfl
    · rfl

/-- C8 witness at a concrete unparsable cell value. -/
theorem c8_witness : marketCapParseValue "N/A" = 0 :=
  c8_market_cap_value_parse.2 "N/A" (by decide)

/-- C9: for precomputed Sector_Allocation and Market_Cap rows, the stored
percentage is the raw Percentage cell times 100 unconditionally — there is
no magnitude check as for gainLossPercent — and a missing Percentage cell
is stored as 0.0.  A sheet whose Percentage column is already on the 0-100
scale is therefore inflated 100-fold. -/
theorem c9_percentage_times_100 :
    (∀ (sec : Cell) (v p : ℚ), sec.truthy = true →
      processSectorRow ⟨sec, Cell.num v, Cell.num p⟩ =
        some (some (sec, ⟨v, p * 100⟩))) ∧
    (∀ (sec : Cell) (v : ℚ), sec.truthy = true →
      processSectorRow ⟨sec, Cell.num v, Cell.none⟩ = some (some (sec, ⟨v, 0⟩))) ∧
    (∀ (mc val : Cell) (p : ℚ), mc.truthy = true →
      processMCRow ⟨mc, val, Cell.num p⟩ =
        some (some (mc, ⟨marketCapParseValue (pyStr val), p * 100⟩))) ∧
    (∀ (mc val : Cell), mc.truthy = true →
      processMCRow ⟨mc, val, Cell.none⟩ =
        some (some (mc, ⟨marketCapParseValue (pyStr val), 0⟩))) := by
  refine ⟨?_, ?_, ?_, ?_⟩
  · intro sec v p hsec
    unfold processSectorRow
    rw [hsec]
    by_cases hv : v = 0 <;> by_cases hp : p = 0 <;>
      simp [Cell.truthy, hv, hp, cellFloat]
  · intro sec v hsec
    unfold processSectorRow
    rw [hsec]
    by_cases hv : v = 0 <;> simp [Cell.truthy, hv, cellFloat]
  · intro mc val p hmc
    unfold processMCRow
    rw [hmc]
    by_cases hp : p = 0 <;> simp [Cell.truthy, hp, cellFloat]
  · intro mc val hmc
    unfold processMCRow
    rw [hmc]
    simp [Cell.truthy]

/-- C9 witness: a Percentage cell holding 45 (a 0-100-scale value) is
stored as 4500, and a missing Percentage cell as 0. -/
theorem c9_witness :
    processSectorRow ⟨Cell.str "Energy", Cell.num 5, Cell.num 45⟩ =
      some (some (Cell.str "Energy", ⟨5, 4500⟩)) ∧
    processMCRow ⟨Cell.str "Mid", Cell.str "x", Cell.none⟩ =
      some (some (Cell.str "Mid", ⟨marketCapParseValue "x", 0⟩)) := by
  constructor
  · have h := c9_percentage_times_100.1 (Cell.str "Energy") 5 45 (by decide)
    rw [h]
    norm_num
  · have h := c9_percentage_times_100.2.2.2 (Cell.str "Mid") (Cell.str "x") (by decide)
    rw [h]
    rfl

/-- C3: the gainLossPercent coercion multiplies a raw numeric value by 100
exactly when its magnitude is ≤ 1 and keeps it unchanged otherwise; 0.15
becomes 15.0, 22.5 stays 22.5, and re-normalizing an already-normalized
value of magnitude > 1 is the identity. -/
theorem c3_gain_loss_percent_normalization :
    (∀ v : ℚ, |v| ≤ 1 → cellGainLossPercent (Cell.num v) = some (v * 100)) ∧
    (∀ v : ℚ, 1 < |v| → cellGainLossPercent (Cell.num v) = some v) ∧
    (∀ v w : ℚ, cellGainLossPercent (Cell.num v) = some w → 1 < |w| →
      cellGainLossPercent (Cell.num w) = some w) ∧
    cellGainLossPercent (Cell.num (15 / 100)) = some 15 ∧
    cellGainLossPercent (Cell.num (45 / 2)) = some (45 / 2) := by
  have h1 : ∀ v : ℚ, |v| ≤ 1 → cellGainLossPercent (Cell.num v) = some (v * 100) := by
    intro v hv
    by_cases h0 : v = 0
    · subst h0
      simp [cellGainLossPercent, Cell.truthy]
    · simp [cellGainLossPercent, Cell.truthy, h0, cellAbs, cellFloat, hv]
  have h2 : ∀ v : ℚ, 1 < |v| → cellGainLossPercent (Cell.num v) = some v := by
    intro v hv
    have h0 : v ≠ 0 := by
      intro h
      rw [h] at hv
      norm_num at hv
    simp [cellGainLossPercent, Cell.truthy, h0, cellAbs, cellFloat, not_le.mpr hv]
  refine ⟨h1, h2, ?_, ?_, ?_⟩
  · intro v w _ hw
    exact h2 w hw
  · have h := h1 (15 / 100) (by rw [abs_of_pos] <;> norm_num)
    rw [h]
    norm_num
  · exact h2 (45 / 2) (by rw [abs_of_pos] <;> norm_num)

/-- C3 witness at the concrete raw values 0.5 and 7. -/
theorem c3_witness :
    cellGainLossPercent (Cell.num (1 / 2)) = some 50 ∧
    cellGainLossPercent (Cell.num 7) = some 7 := by
  constructor
  · have h := c3_gain_loss_percent_normalization.1 (1 / 2) (by rw [abs_of_pos] <;> norm_num)
    rw [h]
    norm_num
  · exact c3_gain_loss_percent_normalization.2.1 7 (by rw [abs_of_pos] <;> norm_num)

/-- C6: the diversification score is 5.0 on an empty holdings list and
otherwise clamp(min(2 × distinct sectors, 10) − max(0, (n − 10) × 0.1),
1, 10); 1 holding in 1 sector scores 2.0, 8 holdings over 5 sectors score
10.0, and 20 holdings over 3 sectors score 5.0. -/
theorem c6_diversification_score :
    (∀ hs : List Holding, hs = [] → calculate_diversification_score hs = 5) ∧
    (∀ hs : List Holding, hs ≠ [] →
      calculate_diversification_score hs =
        min 10 (max 1
          (((min (((hs.map Holding.sector).dedup).length * 2) 10 : ℕ) : ℚ) -
            max 0 (((hs.length : ℚ) - 10) * (1 / 10))))) ∧
    calculate_diversification_score [mkHolding "A" "S1" 0] = 2 ∧
    calculate_diversification_score exEightHoldings = 10 ∧
    calculate_diversification_score exTwentyHoldings = 5 := by
  have h2 : ∀ hs : List Holding, hs ≠ [] →
      calculate_diversification_score hs =
        min 10 (max 1
          (((min (((hs.map Holding.sector).dedup).length * 2) 10 : ℕ) : ℚ) -
            max 0 (((hs.length : ℚ) - 10) * (1 / 10)))) := by
    intro hs hne
    have hempty : hs.isEmpty = false := by
      simpa [List.isEmpty_iff] using hne
    unfold calculate_diversification_score
    rw [hempty]
    simp only [Bool.false_eq_true, if_false]
    by_cases hn : hs.length > 10
    · rw [if_pos hn]
    · rw [if_neg hn]
      have hle : (hs.length : ℚ) ≤ 10 := by
        exact_mod_cast Nat.not_lt.mp hn
      have : max 0 (((hs.length : ℚ) - 10) * (1 / 10)) = 0 := by
        apply max_eq_left
        apply mul_nonpos_of_nonpos_of_nonneg
        · linarith
        · norm_num
      rw [this]
  refine ⟨?_, h2, ?_, ?_, ?_⟩
  · intro hs h
    subst h
    rfl
  · rw [h2 [mkHolding "A" "S1" 0] (by simp)]
    have hd : (([mkHolding "A" "S1" 0].map Holding.sector).dedup).length = 1 := by decide
    rw [hd]
    norm_num
  · rw [h2 exEightHoldings (by decide)]
    have hd : ((exEightHoldings.map Holding.sector).dedup).length = 5 := by decide
    have hl : exEightHoldings.length = 8 := by decide
    rw [hd, hl]
    norm_num
  · rw [h2 exTwentyHoldings (by decide)]
    have hd : ((exTwentyHoldings.map Holding.sector).dedup).length = 3 := by decide
    have hl : exTwentyHoldings.length = 20 := by decide
    rw [hd, hl]
    norm_num [max_def, min_def]

/-- C6 witness: the score formula applied at two holdings in two sectors. -/
theorem c6_witness :
    calculate_diversification_score [mkHolding "A" "S1" 0, mkHolding "B" "S2" 0] = 4 := by
  rw [c6_diversification_score.2.1 [mkHolding "A" "S1" 0, mkHolding "B" "S2" 0] (by simp)]
  have hd : (([mkHolding "A" "S1" 0, mkHolding "B" "S2" 0].map Holding.sector).dedup).length = 2 := by
    decide
  rw [hd]
  norm_num

/-- C7: with nonnegative holding values (the data model's domain), the
risk level is Moderate on an empty list and otherwise Conservative iff
diversification ≥ 8 and the high-risk value share < 0.3, else Moderate iff
diversification ≥ 6 and the share < 0.5, else Aggressive; the share
comparisons are strict, so a share of exactly 0.3 at diversification 8 is
not Conservative. -/
theorem c7_risk_level (d : ℚ) (hs : List Holding) (hval : ∀ h ∈ hs, 0 ≤ h.value) :
    (hs = [] → determine_risk_level d hs = "Moderate") ∧
    (hs ≠ [] →
      determine_risk_level d hs =
        (if d ≥ 8 ∧ specHighRiskShare hs < 3 / 10 then "Conservative"
         else if d ≥ 6 ∧ specHighRiskShare hs < 1 / 2 then "Moderate"
         else "Aggressive")) ∧
    determine_risk_level 8 [mkHolding "T" "Technology" 3, mkHolding "B" "Banking" 7] =
      "Moderate" := by
  refine ⟨?_, ?_, ?_⟩
  · intro h
    subst h
    rfl
  · intro hne
    have hempty : hs.isEmpty = false := by
      simpa [List.isEmpty_iff] using hne
    have htot : (0 : ℚ) ≤ (hs.map Holding.value).sum := by
      apply List.sum_nonneg
      intro x hx
      obtain ⟨h, hh, rfl⟩ := List.mem_map.mp hx
      exact hval h hh
    unfold determine_risk_level specHighRiskShare
    rw [hempty]
    simp only [Bool.false_eq_true, if_false]
    rcases eq_or_lt_of_le htot with h0 | hpos
    · rw [← h0]
      norm_num
    · rw [if_pos hpos, if_neg (ne_of_gt hpos)]
  · have hshare :
        specHighRiskShare [mkHolding "T" "Technology" 3, mkHolding "B" "Banking" 7] = 3 / 10 := by
      unfold specHighRiskShare
      simp only [List.filter, List.map, List.sum_cons, List.sum_nil, mkHolding]
      norm_num
    have hne : ([mkHolding "T" "Technology" 3, mkHolding "B" "Banking" 7] : List Holding) ≠ [] := by
      simp
    have hempty : ([mkHolding "T" "Technology" 3, mkHolding "B" "Banking" 7] : List Holding).isEmpty = false := by
      rfl
    have htot : (0 : ℚ) ≤ (([mkHolding "T" "Technology" 3, mkHolding "B" "Banking" 7] : List Holding).map Holding.value).sum := by
      norm_num [mkHolding]
    unfold determine_risk_level
    rw [hempty]
    simp only [Bool.false_eq_true, if_false, mkHolding, List.filter, List.map,
      List.sum_cons, List.sum_nil]
    norm_num

/-- C7 witness: one Banking holding at diversification 9 is Conservative. -/
theorem c7_witness : determine_risk_level 9 [mkHolding "B" "Banking" 10] = "Conservative" := by
  have hval : ∀ h ∈ [mkHolding "B" "Banking" 10], (0 : ℚ) ≤ h.value := by
    intro h hh
    simp only [List.mem_singleton] at hh
    subst hh
    norm_num [mkHolding]
  have h := (c7_risk_level 9 [mkHolding "B" "Banking" 10] hval).2.1 (by simp)
  rw [h]
  have hshare : specHighRiskShare [mkHolding "B" "Banking" 10] = 0 := by
    unfold specHighRiskShare
    simp only [List.filter, List.map, List.sum_cons, List.sum_nil, mkHolding]
    norm_num
  rw [hshare]
  norm_num

/-- calculate_return agrees with the specification's wording of the period
return. -/
theorem calculate_return_eq_specReturn (c p : ℚ) : calculate_return c p = specReturn c p := by
  unfold calculate_return specReturn
  rcases le_or_lt p 0 with h | h
  · rw [if_neg (not_lt.mpr h), if_pos h]
  · rw [if_pos h, if_neg (not_le.mpr h)]

/-- C5: with fewer than two timeline points the returns dict is empty;
otherwise, for each of portfolio/nifty50/gold, month1 compares the last
point with the second-to-last, months3 with the point at index
max(0, length − 4), year1 with the first point, each return being
(current − past)/past × 100 rounded to one decimal and 0 when the past
value is ≤ 0. -/
theorem c5_performance_returns :
    (∀ tl : List PerfPoint, tl.length < 2 → calculate_performance_returns tl = Option.none) ∧
    (∀ tl : List PerfPoint, 2 ≤ tl.length →
      calculate_performance_returns tl =
        (let dflt : PerfPoint := ⟨"", 0, 0, 0⟩
         let cur := tl.getD (tl.length - 1) dflt
         let p1 := tl.getD (tl.length - 2) dflt
         let p3 := tl.getD (max 0 (tl.length - 4)) dflt
         let y := tl.getD 0 dflt
         some
           ⟨⟨specReturn cur.portfolio p1.portfolio, specReturn cur.portfolio p3.portfolio,
             specReturn cur.portfolio y.portfolio⟩,
            ⟨specReturn cur.nifty50 p1.nifty50, specReturn cur.nifty50 p3.nifty50,
             specReturn cur.nifty50 y.nifty50⟩,
            ⟨specReturn cur.gold p1.gold, specReturn cur.gold p3.gold,
             specReturn cur.gold y.gold⟩⟩)) := by
  constructor
  · intro tl h
    unfold calculate_performance_returns
    rw [if_pos (Or.inr h)]
  · intro tl h
    unfold calculate_performance_returns
    rw [if_neg]
    · by_cases h4 : tl.length ≥ 4
      · simp only [ge_iff_le, h, h4, if_true, calculate_return_eq_specReturn]
      · have hm : max 0 (tl.length - 4) = 0 := by omega
        simp only [ge_iff_le, h, h4, if_true, if_false, hm, calculate_return_eq_specReturn]
    · push_neg
      constructor
      · intro hemp
        rw [List.isEmpty_iff] at hemp
        rw [hemp] at h
        norm_num at h
      · exact h

/-- C5 witness: on a concrete two-point timeline every period compares the
last point against the first, gains round exactly, and a past value of 0
yields a 0 return. -/
theorem c5_witness :
    calculate_performance_returns twoPointTimeline =
      some ⟨⟨10, 10, 10⟩, ⟨-50, -50, -50⟩, ⟨0, 0, 0⟩⟩ := by
  have h := c5_performance_returns.2 twoPointTimeline (by decide)
  rw [h]
  have hlen : twoPointTimeline.length = 2 := by decide
  simp only [twoPointTimeline, hlen]
  norm_num [List.getD]
  have hp : specReturn (110 : ℚ) 100 = 10 := by
    unfold specReturn
    rw [if_neg (by norm_num)]
    have h10 : ((110 : ℚ) - 100) / 100 * 100 * 10 ^ 1 = ((100 : ℤ) : ℚ) := by norm_num
    rw [pyRound_exact _ 1 100 h10]
    norm_num
  have hn : specReturn (100 : ℚ) 200 = -50 := by
    unfold specReturn
    rw [if_neg (by norm_num)]
    have hv : ((100 : ℚ) - 200) / 200 * 100 * 10 ^ 1 = ((-500 : ℤ) : ℚ) := by norm_num
    rw [pyRound_exact _ 1 (-500) hv]
    norm_num
  have hg : specReturn (5 : ℚ) 0 = 0 := by
    unfold specReturn
    rw [if_pos le_rfl]
  simp [hp, hn, hg]

/-- The totals-accumulation fold never empties a non-empty accumulator. -/
theorem accumTotals_foldl_ne_nil (keyOf : Holding → String) :
    ∀ (t : List Holding) (acc : List (String × ℚ)), acc ≠ [] →
      (t.foldl
        (fun acc h =>
          if acc.any (fun p => decide (p.1 = keyOf h)) then
            acc.map (fun p => if p.1 = keyOf h then (p.1, p.2 + h.value) else p)
          else acc ++ [(keyOf h, h.value)])
        acc) ≠ [] := by
  intro t
  induction t with
  | nil =>
    intro acc h
    simpa using h
  | cons a t ih =>
    intro acc hacc
    rw [List.foldl_cons]
    apply ih
    split
    · simpa using hacc
    · simp

/-- Grouping a non-empty holdings list yields a non-empty totals dict. -/
theorem accumTotals_ne_nil (keyOf : Holding → String) (h : Holding) (t : List Holding) :
    accumTotals keyOf (h :: t) ≠ [] := by
  unfold accumTotals
  rw [List.foldl_cons]
  apply accumTotals_foldl_ne_nil
  simp

/-- mapM over Except errors out on a non-empty list whose elements all
map to the same error. -/
theorem mapM_const_error {α β : Type} (f : α → Except String β) (e : String)
    (hf : ∀ a, f a = Except.error e) (l : List α) (hl : l ≠ []) :
    l.mapM f = Except.error e := by
  match l with
  | a :: t =>
    rw [List.mapM_cons, hf a]
    rfl

/-- Both fallback allocation computations raise ZeroDivisionError on a
non-empty holdings list whose values sum to zero. -/
theorem allocation_zero_total_error (cache : DataCache) (l : List Holding)
    (hsec : optTruthy cache.sector_allocation = false)
    (hmc : optTruthy cache.market_cap = false)
    (hl : cache.holdings = some l) (hlne : l ≠ [])
    (htot : (l.map Holding.value).sum = 0) :
    calculate_allocation_by_sector cache = Except.error "ZeroDivisionError" ∧
    calculate_allocation_by_market_cap cache = Except.error "ZeroDivisionError" := by
  have hht : optTruthy cache.holdings = true := by
    rw [hl]
    simpa [optTruthy, List.isEmpty_iff] using hlne
  obtain ⟨a, t, rfl⟩ := List.exists_cons_of_ne_nil hlne
  constructor
  · unfold calculate_allocation_by_sector
    simp only [hsec, Bool.false_eq_true, if_false, hht, not_true, hl, Option.getD_some]
    exact mapM_const_error _ _ (fun p => if_pos htot) _ (accumTotals_ne_nil Holding.sector a t)
  · unfold calculate_allocation_by_market_cap
    simp only [hmc, Bool.false_eq_true, if_false, hht, not_true, hl, Option.getD_some]
    exact mapM_const_error _ _ (fun p => if_pos htot) _ (accumTotals_ne_nil Holding.marketCap a t)

/-- C2 (amended): in the fallback path (no precomputed allocation table)
both allocation functions return the empty mapping when the holdings list
is missing or empty; but when the holdings list is non-empty with total
value zero, the percentage division raises ZeroDivisionError instead of
returning an empty result. -/
theorem c2_fallback_allocation (cache : DataCache)
    (hsec : optTruthy cache.sector_allocation = false)
    (hmc : optTruthy cache.market_cap = false) :
    (optTruthy cache.holdings = false →
      calculate_allocation_by_sector cache = Except.ok [] ∧
      calculate_allocation_by_market_cap cache = Except.ok []) ∧
    (∀ l : List Holding, cache.holdings = some l → l ≠ [] →
      (l.map Holding.value).sum = 0 →
      calculate_allocation_by_sector cache = Except.error "ZeroDivisionError" ∧
      calculate_allocation_by_market_cap cache = Except.error "ZeroDivisionError") := by
  constructor
  · intro hh
    constructor
    · unfold calculate_allocation_by_sector
      simp [hsec, hh]
    · unfold calculate_allocation_by_market_cap
      simp [hmc, hh]
  · intro l hl hlne htot
    exact allocation_zero_total_error cache l hsec hmc hl hlne htot

/-- C2 counterexample: with one holding of value zero and no precomputed
tables, both fallback computations divide by zero and error out rather
than returning the empty mapping the claim promises. -/
theorem c2_zero_total_divzero_cex :
    calculate_allocation_by_sector (holdingsOnlyCache [mkHolding "A" "S" 0]) =
      Except.error "ZeroDivisionError" ∧
    calculate_allocation_by_market_cap (holdingsOnlyCache [mkHolding "A" "S" 0]) =
      Except.error "ZeroDivisionError" := by
  apply allocation_zero_total_error (holdingsOnlyCache [mkHolding "A" "S" 0])
    [mkHolding "A" "S" 0] rfl rfl rfl (by simp)
  simp [mkHolding]

/-- C2 witness: with an empty holdings list and no precomputed tables both
allocation functions return the empty mapping. -/
theorem c2_witness :
    calculate_allocation_by_sector (holdingsOnlyCache []) = Except.ok [] ∧
    calculate_allocation_by_market_cap (holdingsOnlyCache []) = Except.ok [] :=
  (c2_fallback_allocation (holdingsOnlyCache []) rfl rfl).1 rfl

/-- The integer coercion succeeds exactly when the cell is falsy or
parses as a number. -/
theorem cellIntOrZero_isSome_iff (c : Cell) :
    (cellIntOrZero c).isSome = true ↔
      (¬ c.truthy = true ∨ (cellFloat c).isSome = true) := by
  unfold cellIntOrZero
  by_cases h : c.truthy = true <;> simp [h]

/-- The float coercion succeeds exactly when the cell is falsy or parses
as a number. -/
theorem cellNumOrZero_isSome_iff (c : Cell) :
    (cellNumOrZero c).isSome = true ↔
      (¬ c.truthy = true ∨ (cellFloat c).isSome = true) := by
  unfold cellNumOrZero
  by_cases h : c.truthy = true <;> simp [h]

/-- The gainLossPercent coercion succeeds exactly when the cell is falsy
or is a number (abs raises on anything truthy that is not a number). -/
theorem cellGainLossPercent_isSome_iff (c : Cell) :
    (cellGainLossPercent c).isSome = true ↔
      (¬ c.truthy = true ∨ (cellAbs c).isSome = true) := by
  unfold cellGainLossPercent
  by_cases h : c.truthy = true
  · cases c with
    | none => simp [Cell.truthy] at h
    | str s => simp [h, cellAbs]
    | num q =>
      simp only [h, if_true, cellAbs, cellFloat]
      split <;> simp
  · simp [h]

/-- A holdings row survives conversion exactly when its symbol is truthy
and all its numeric coercions succeed. -/
theorem processHoldingRow_isSome_iff (row : List (String × Cell)) :
    (processHoldingRow row).isSome = true ↔
      ((hSymbol row).truthy = true ∧ rowNumericsOk row = true) := by
  unfold processHoldingRow
  by_cases hsym : (hSymbol row).truthy = true
  · simp only [hsym, not_true, if_false, if_neg (by simp : ¬ ¬ true = true)]
    rw [show (rowNumericsOk row = true) ↔
        ((¬ (hQuantity row).truthy = true ∨ (cellFloat (hQuantity row)).isSome = true) ∧
         (¬ (hAvgPrice row).truthy = true ∨ (cellFloat (hAvgPrice row)).isSome = true) ∧
         (¬ (hCurrentPrice row).truthy = true ∨ (cellFloat (hCurrentPrice row)).isSome = true) ∧
         (¬ (hValue row).truthy = true ∨ (cellFloat (hValue row)).isSome = true) ∧
         (¬ (hGainLoss row).truthy = true ∨ (cellFloat (hGainLoss row)).isSome = true) ∧
         (¬ (hGainLossPercent row).truthy = true ∨ (cellAbs (hGainLossPercent row)).isSome = true))
      from by unfold rowNumericsOk; simp]
    rw [← cellIntOrZero_isSome_iff, ← cellNumOrZero_isSome_iff, ← cellNumOrZero_isSome_iff,
      ← cellNumOrZero_isSome_iff, ← cellNumOrZero_isSome_iff, ← cellGainLossPercent_isSome_iff]
    rcases hq : cellIntOrZero (hQuantity row) with _ | qv <;>
      rcases ha : cellNumOrZero (hAvgPrice row) with _ | av <;>
        rcases hc : cellNumOrZero (hCurrentPrice row) with _ | cv <;>
          rcases hv : cellNumOrZero (hValue row) with _ | vv <;>
            rcases hg : cellNumOrZero (hGainLoss row) with _ | gv <;>
              rcases hp : cellGainLossPercent (hGainLossPercent row) with _ | pv <;>
                simp [hq, ha, hc, hv, hg, hp]
  · simp [hsym]

/-- The number of rows a filterMap keeps is the number of rows its
function succeeds on. -/
theorem length_filterMap_eq_length_filter {α β : Type} (f : α → Option β) (l : List α) :
    (l.filterMap f).length = (l.filter (fun a => (f a).isSome)).length := by
  induction l with
  | nil => rfl
  | cons a t ih =>
    rcases h : f a with _ | b <;> simp [List.filterMap_cons, h, List.filter_cons, ih]

/-- C4 (amended): the loader keeps exactly the Holdings rows with a truthy
symbol whose numeric coercions all succeed — a row whose numeric cells are
blank or zero is kept with the numerics coerced to 0, but a row with a
truthy symbol and a non-numeric numeric cell raises inside the row try and
is skipped; the holdings query then returns one record per kept row. -/
theorem c4_holdings_count :
    (∀ rows : List (List (String × Cell)),
      (holdingsOfRows rows).length =
        (rows.filter (fun r => (hSymbol r).truthy && rowNumericsOk r)).length) ∧
    (∀ row : List (String × Cell), (hSymbol row).truthy = true →
      rowNumericsFalsy row = true →
      processHoldingRow row =
        some ⟨pyStr (hSymbol row), pyStr (hCompanyName row), 0, 0, 0,
              pyStr (hSector row), pyStr (hMarketCap row), 0, 0, 0⟩) ∧
    (∀ (cache : DataCache) (l : List Holding), cache.holdings = some l → l ≠ [] →
      get_portfolio_holdings cache = Except.ok (l.map toHoldingItem)) := by
  refine ⟨?_, ?_, ?_⟩
  · intro rows
    unfold holdingsOfRows
    rw [length_filterMap_eq_length_filter]
    congr 1
    apply List.filter_congr
    intro r _
    cases hy : ((hSymbol r).truthy && rowNumericsOk r) with
    | true =>
      rw [Bool.and_eq_true] at hy
      exact (processHoldingRow_isSome_iff r).mpr hy
    | false =>
      cases hx : (processHoldingRow r).isSome with
      | false => rfl
      | true =>
        have h2 := (processHoldingRow_isSome_iff r).mp hx
        rw [← Bool.and_eq_true] at h2
        rw [h2] at hy
        exact absurd hy (by simp)
  · intro row hsym hfalsy
    unfold rowNumericsFalsy at hfalsy
    simp only [Bool.and_eq_true, Bool.not_eq_true'] at hfalsy
    obtain ⟨⟨⟨⟨⟨h1, h2⟩, h3⟩, h4⟩, h5⟩, h6⟩ := hfalsy
    unfold processHoldingRow cellIntOrZero cellNumOrZero cellGainLossPercent
    simp [hsym, h1, h2, h3, h4, h5, h6]
  · intro cache l hl hlne
    have hht : optTruthy (some l) = true := by
      simpa [optTruthy, List.isEmpty_iff] using hlne
    unfold get_portfolio_holdings
    simp [hl, hht]

/-- C4 counterexample: the row has a non-empty symbol, yet the loader
drops it entirely: int(float("abc")) raises, the row-level except skips
the row, and the holdings list comes out empty instead of coercing the
quantity to 0. -/
theorem c4_nonnumeric_row_dropped_cex :
    (hSymbol nonNumericQuantityRow).truthy = true ∧
    holdingsOfRows [nonNumericQuantityRow] = [] := by
  constructor
  · decide
  · decide

/-- C4 witness: a row with a truthy symbol and all-blank numerics is kept,
with every numeric field coerced to 0. -/
theorem c4_witness :
    processHoldingRow blankNumericsRow =
      some ⟨"INFY", "", 0, 0, 0, "", "", 0, 0, 0⟩ := by
  have h := c4_holdings_count.2.1 blankNumericsRow (by decide) (by decide)
  rw [h]
  rfl

/-- C10: with a single holding and no precomputed Top_Performers table,
the fallback derivation fills both ends of each sort with that holding, so
topPerformer equals worstPerformer and highestValue equals lowestValue;
and on any non-empty holdings list the fallback produces a result (no
IndexError). -/
theorem c10_single_holding_performers (h : Holding) (hs : List Holding) (hne : hs ≠ []) :
    fallbackPerformers [h] =
      some (⟨h.symbol, h.name, some h.gainLossPercent, Option.none⟩,
            ⟨h.symbol, h.name, some h.gainLossPercent, Option.none⟩,
            ⟨h.symbol, h.name, Option.none, some h.value⟩,
            ⟨h.symbol, h.name, Option.none, some h.value⟩) ∧
    (fallbackPerformers hs).isSome = true := by
  constructor
  · unfold fallbackPerformers
    simp [List.mergeSort]
  · unfold fallbackPerformers
    have hp : hs.mergeSort (fun a b => decide (b.gainLossPercent ≤ a.gainLossPercent)) ≠ [] := by
      intro hnil
      have hlen := congrArg List.length hnil
      rw [List.length_mergeSort] at hlen
      exact hne (List.length_eq_zero.mp hlen)
    have hv : hs.mergeSort (fun a b => decide (b.value ≤ a.value)) ≠ [] := by
      intro hnil
      have hlen := congrArg List.length hnil
      rw [List.length_mergeSort] at hlen
      exact hne (List.length_eq_zero.mp hlen)
    obtain ⟨p, pt, hpc⟩ := List.exists_cons_of_ne_nil hp
    obtain ⟨v, vt, hvc⟩ := List.exists_cons_of_ne_nil hv
    obtain ⟨pl, hpl⟩ := Option.isSome_iff_exists.mp (List.getLast?_isSome.mpr hp)
    obtain ⟨vl, hvl⟩ := Option.isSome_iff_exists.mp (List.getLast?_isSome.mpr hv)
    simp only [hpc, hvc] at hpl hvl ⊢
    rw [hpl, hvl]
    rfl

/-- C10 witness at a concrete single holding. -/
theorem c10_witness :
    fallbackPerformers [mkHolding "A" "S" 1] =
      some (⟨"A", "", some 0, Option.none⟩, ⟨"A", "", some 0, Option.none⟩,
            ⟨"A", "", Option.none, some 1⟩, ⟨"A", "", Option.none, some 1⟩) := by
  have h :=
    (c10_single_holding_performers (mkHolding "A" "S" 1) [mkHolding "A" "S" 1] (by simp)).1
  rw [h]
  rfl
